import Mathlib

/-!
Verification of the moving-average pipeline in the stock_market_analysis
repository (two near-duplicate scripts: `apple_stock_analysis.py` and
`apple_stock_data.py`).

Shallow embedding notes.
* A pandas cell is `Option ℚ`: `none` models NaN (the missing marker that
  `rolling(...).mean()` writes into the first `window - 1` positions), and
  `some q` models a numeric value.  IEEE-754 doubles are modelled by exact
  rationals, so the spec's "tolerance 1e-9" statements become exact
  equalities here.
* A DataFrame is its (named) index — a list of date strings — together with
  an ordered list of named columns.  `data[name] = col` (pandas item
  assignment) replaces an existing column in place or appends a new one at
  the end; `data[name]` raises `KeyError` when the column is absent.
* `Series.rolling(window=w).mean()` (default `min_periods`, i.e.
  `min_periods = w`): negative `w` is rejected with a `ValueError` at
  construction time ("window must be an integer 0 or greater"); otherwise
  entry `i` of the result is the mean of the last `w` cells ending at `i`
  when all `w` of them exist and are numeric, and NaN otherwise (so `w = 0`
  yields an all-NaN column, not an error).
* The Python f-string `f'{window}_SMA'` renders the window in decimal; the
  rendering is embedded as `intRepr` (decimal digits from `Nat.digits`),
  which matches Python's `str` on integers.
* File and network I/O are external collaborators: `yf.download` becomes an
  `Except String DataFrame` parameter, and `to_csv` is modelled by the
  `Csv` value the script would write (header plus one row per index entry).
-/

namespace StockSpec

/-- One pandas cell: `none` is NaN / the undefined marker, `some q` a number. -/
abbrev Cell := Option ℚ

/-- A pandas DataFrame: a named date index plus ordered named columns. -/
structure DataFrame where
  indexName : String
  index : List String
  cols : List (String × List Cell)
deriving DecidableEq

/-- Column lookup by name, first match (pandas `data[name]` read). -/
def getColList : List (String × List Cell) → String → Option (List Cell)
  | [], _ => none
  | c :: cs, name => if c.1 = name then some c.2 else getColList cs name

/-- Column assignment (pandas `data[name] = col`): replace in place if the
name exists, otherwise append the new column at the end. -/
def setColList : List (String × List Cell) → String → List Cell → List (String × List Cell)
  | [], name, col => [(name, col)]
  | c :: cs, name, col =>
    if c.1 = name then (name, col) :: cs else c :: setColList cs name col

/-- Read a column of a DataFrame, `none` when absent. -/
def DataFrame.getCol? (df : DataFrame) (name : String) : Option (List Cell) :=
  getColList df.cols name

/-- Pandas `data[name]` as an exception-raising read (`KeyError` if absent). -/
def DataFrame.getItem (df : DataFrame) (name : String) : Except String (List Cell) :=
  match getColList df.cols name with
  | some col => Except.ok col
  | none => Except.error "KeyError"

/-- Pandas `data[name] = col`. -/
def DataFrame.setCol (df : DataFrame) (name : String) (col : List Cell) : DataFrame :=
  { df with cols := setColList df.cols name col }

/-- The ordered column names of a DataFrame. -/
def DataFrame.colNames (df : DataFrame) : List String :=
  df.cols.map Prod.fst

/-- The trailing window of positions `[i - w + 1, i]` of a series (clipped at
the left edge, as pandas windows are before `min_periods` is reached). -/
def windowSlice (xs : List Cell) (w i : ℕ) : List Cell :=
  (xs.take (i + 1)).drop (i + 1 - w)

/-- Entry `i` of `Series.rolling(window=w).mean()` with the default
`min_periods = w`: defined iff the trailing window holds `w` numeric values
(which forces `i ≥ w - 1` and `w > 0`), in which case it is their mean. -/
def rollingMeanAt (xs : List Cell) (w i : ℕ) : Cell :=
  let s := (windowSlice xs w i).filterMap id
  if 0 < w ∧ s.length = w then some (s.sum / (w : ℚ)) else none

/-- `Series.rolling(window=w).mean()` for a validated (nonnegative) window:
one output cell per input cell. -/
def rollingMean (xs : List Cell) (w : ℕ) : List Cell :=
  (List.range xs.length).map (rollingMeanAt xs w)

/-- `Series.rolling(window=window).mean()` including pandas' window
validation: a negative window raises `ValueError` before computing. -/
def rolling_mean (xs : List Cell) (window : ℤ) : Except String (List Cell) :=
  if window < 0 then Except.error "window must be an integer 0 or greater"
  else Except.ok (rollingMean xs window.toNat)

/-- Inverse of `Nat.digitChar` on the decimal digits (used only to prove
injectivity of the decimal rendering). -/
def charDigit : Char → ℕ
  | '0' => 0
  | '1' => 1
  | '2' => 2
  | '3' => 3
  | '4' => 4
  | '5' => 5
  | '6' => 6
  | '7' => 7
  | '8' => 8
  | '9' => 9
  | _ => 0

/-- Decimal digits of `n`, least significant first, with explicit fuel so the
definition is structural (and hence evaluates inside `decide`). -/
def natToDigitsRev : ℕ → ℕ → List ℕ
  | 0, _ => []
  | _ + 1, 0 => []
  | fuel + 1, n + 1 => (n + 1) % 10 :: natToDigitsRev fuel ((n + 1) / 10)

/-- Decimal rendering of a natural number, as Python's `str` produces it. -/
def natRepr (n : ℕ) : String :=
  if n = 0 then "0"
  else (((natToDigitsRev n n).map Nat.digitChar).reverse).asString

/-- Decimal rendering of an integer, as Python's `str` produces it. -/
def intRepr : ℤ → String
  | Int.ofNat m => natRepr m
  | Int.negSucc m => "-" ++ natRepr (m + 1)

/-- The column name the scripts build with the f-string `f'{window}_SMA'`. -/
def smaColName (window : ℤ) : String :=
  intRepr window ++ "_SMA"

/-- Arithmetic mean of a list of rationals. -/
def mean (l : List ℚ) : ℚ :=
  l.sum / (l.length : ℚ)

/-- The contents of a CSV file the scripts write: the header row, then one
row per trading day (its date string and its numeric cells in header order). -/
structure Csv where
  header : List String
  rows : List (String × List Cell)
deriving DecidableEq

/-- The fixed column subset both save paths project:
`['Open', 'High', 'Low', 'Close', '10_SMA']`. -/
def saveColumns : List String :=
  ["Open", "High", "Low", "Close", "10_SMA"]

/-- Select the five projected columns in order, `none` (pandas raises
`KeyError` when any requested column is missing) otherwise. -/
def selectColumns (df : DataFrame) : Option (List (List Cell)) :=
  if saveColumns.all fun name => (df.getCol? name).isSome then
    some (saveColumns.filterMap df.getCol?)
  else none

/-- Assemble the CSV from the date index plus the selected columns (this is
`reset_index` followed by `to_csv(index=False)`). -/
def buildCsv (df : DataFrame) (cols : List (List Cell)) : Csv :=
  { header := df.indexName :: saveColumns,
    rows := (List.range df.index.length).map fun i =>
      (df.index.getD i "", cols.map fun c => c.getD i none) }

/-- Outcome of running a script: normal return from `main` (process exit 0),
explicit `sys.exit(code)`, or an uncaught exception (nonzero process exit). -/
inductive RunOutcome where
  | normal : RunOutcome
  | exitWith : ℕ → RunOutcome
  | uncaught : RunOutcome
deriving DecidableEq

end StockSpec

namespace AppleStockAnalysis

open StockSpec

/-- Embeds `calculate_sma` of `apple_stock_analysis.py`:
`data[f'{window}_SMA'] = data['Close'].rolling(window=window).mean()`,
returning the (extended) frame; column read, rolling validation, and
assignment can each raise, modelled with `Except`. -/
def calculate_sma (data : DataFrame) (window : ℤ) : Except String DataFrame :=
  match data.getItem "Close" with
  | Except.error e => Except.error e
  | Except.ok close =>
    match rolling_mean close window with
    | Except.error e => Except.error e
    | Except.ok sma => Except.ok (data.setCol (smaColName window) sma)

/-- Embeds `fetch_stock_data` of `apple_stock_analysis.py`: the `yf.download`
result is a parameter; an empty frame raises
`ValueError(f"No data found for ticker {ticker}")`, which propagates to the
caller (this script has no `try` around the download itself). -/
def fetch_stock_data (ticker : String) (download : Except String DataFrame) :
    Except String DataFrame :=
  match download with
  | Except.error e => Except.error e
  | Except.ok data =>
    if data.index = [] then Except.error ("No data found for ticker " ++ ticker)
    else Except.ok data

/-- Embeds `process_and_save_data` of `apple_stock_analysis.py`: select the
hard-coded columns `['Open', 'High', 'Low', 'Close', '10_SMA']` (a `KeyError`
when one is absent), `reset_index`, and write the CSV; the value is the CSV
contents written. -/
def process_and_save_data (data : DataFrame) : Except String Csv :=
  match selectColumns data with
  | none => Except.error "KeyError"
  | some cols => Except.ok (buildCsv data cols)

/-- The pipeline inside `main`'s `try` block of `apple_stock_analysis.py`:
fetch, SMA with the configured window 10, save (plotting is an external
collaborator with no modelled failure). -/
def main_steps (download : Except String DataFrame) : Except String Csv :=
  match fetch_stock_data "AAPL" download with
  | Except.error e => Except.error e
  | Except.ok d =>
    match calculate_sma d 10 with
    | Except.error e => Except.error e
    | Except.ok d2 => process_and_save_data d2

/-- Embeds `main` of `apple_stock_analysis.py`: every exception is caught by
the `except` clause, which prints `f"An error occurred: {e}"` and returns
normally; the result is the run outcome and the printed error message, if
any. -/
def main_run (download : Except String DataFrame) : RunOutcome × Option String :=
  match main_steps download with
  | Except.error e => (RunOutcome.normal, some ("An error occurred: " ++ e))
  | Except.ok _ => (RunOutcome.normal, none)

end AppleStockAnalysis

namespace AppleStockData

open StockSpec

/-- Embeds `calculate_sma` of `apple_stock_data.py` (textually the same
computation as in `apple_stock_analysis.py`). -/
def calculate_sma (data : DataFrame) (window : ℤ) : Except String DataFrame :=
  match data.getItem "Close" with
  | Except.error e => Except.error e
  | Except.ok close =>
    match rolling_mean close window with
    | Except.error e => Except.error e
    | Except.ok sma => Except.ok (data.setCol (smaColName window) sma)

/-- Embeds `fetch_stock_data` of `apple_stock_data.py`: on an empty download
or a download exception it prints a message and calls `sys.exit(1)`, modelled
as `Except.error 1` (the exit code). -/
def fetch_stock_data (download : Except String DataFrame) : Except ℕ DataFrame :=
  match download with
  | Except.error _ => Except.error 1
  | Except.ok data => if data.index = [] then Except.error 1 else Except.ok data

/-- Embeds the save path of `main` in `apple_stock_data.py`:
`data.reset_index()` then `final_data = data[['Date', 'Open', 'High', 'Low',
'Close', '10_SMA']]` then `to_csv(index=False)`.  Selecting `'Date'` after
`reset_index` succeeds exactly when the index is named `Date`; the value is
the CSV contents written. -/
def main_csv (data : DataFrame) : Except String Csv :=
  if data.indexName = "Date" then
    match selectColumns data with
    | none => Except.error "KeyError"
    | some cols => Except.ok (buildCsv data cols)
  else Except.error "KeyError"

/-- The statements of `main` in `apple_stock_data.py` after the fetch:
SMA with the configured window 10, then the save path.  `main` has no
`try`/`except`, so an error here is an uncaught exception. -/
def post_fetch_steps (data : DataFrame) : Except String Csv :=
  match calculate_sma data 10 with
  | Except.error e => Except.error e
  | Except.ok d2 => main_csv d2

/-- Embeds `main` of `apple_stock_data.py`: `fetch_stock_data` either
`sys.exit`s or returns data; the remaining steps either succeed (normal
return, process exit 0) or raise an uncaught exception. -/
def main_run (download : Except String DataFrame) : RunOutcome :=
  match fetch_stock_data download with
  | Except.error code => RunOutcome.exitWith code
  | Except.ok data =>
    match post_fetch_steps data with
    | Except.error _ => RunOutcome.uncaught
    | Except.ok _ => RunOutcome.normal

end AppleStockData
section Lemmas

open StockSpec

namespace StockSpec

theorem getColList_setColList_self (cols : List (String × List Cell)) (name : String)
    (col : List Cell) : getColList (setColList cols name col) name = some col := by
  induction cols with
  | nil => simp [setColList, getColList]
  | cons c cs ih =>
    by_cases h : c.1 = name
    · simp [setColList, h, getColList]
    · simp [setColList, h, getColList, ih]

theorem getColList_setColList_ne (cols : List (String × List Cell))
    (name name' : String) (col : List Cell) (h : name ≠ name') :
    getColList (setColList cols name' col) name = getColList cols name := by
  have h' : ¬ name' = name := fun hh => h hh.symm
  induction cols with
  | nil => simp [setColList, getColList, h']
  | cons c cs ih =>
    by_cases hc : c.1 = name'
    · simp [setColList, hc, getColList, h']
    · simp [setColList, hc, getColList, ih]

theorem colNames_setColList (cols : List (String × List Cell)) (name : String)
    (col : List Cell) (h : name ∉ cols.map Prod.fst) :
    (setColList cols name col).map Prod.fst = cols.map Prod.fst ++ [name] := by
  induction cols with
  | nil => simp [setColList]
  | cons c cs ih =>
    simp only [List.map_cons, List.mem_cons] at h
    push_neg at h
    have h1 : ¬ c.1 = name := fun hh => h.1 hh.symm
    simp [setColList, h1, ih h.2]

theorem length_rollingMean (xs : List Cell) (w : ℕ) :
    (rollingMean xs w).length = xs.length := by
  simp [rollingMean]

theorem getElem?_rollingMean (xs : List Cell) (w i : ℕ) (hi : i < xs.length) :
    (rollingMean xs w)[i]? = some (rollingMeanAt xs w i) := by
  simp [rollingMean, hi]

theorem filterMap_id_map_some (l : List ℚ) :
    (l.map some).filterMap id = l := by
  induction l with
  | nil => rfl
  | cons a l ih => simp [ih]

theorem length_windowSlice (xs : List Cell) (w i : ℕ) (hi : i < xs.length) :
    (windowSlice xs w i).length = (i + 1) - (i + 1 - w) := by
  simp [windowSlice]
  omega

theorem rollingMeanAt_map_some_defined (closes : List ℚ) (w i : ℕ)
    (hw : 0 < w) (hwi : w ≤ i + 1) (hi : i < closes.length) :
    rollingMeanAt (closes.map some) w i
      = some (mean ((closes.take (i + 1)).drop (i + 1 - w))) := by
  have hslice : windowSlice (closes.map some) w i
      = ((closes.take (i + 1)).drop (i + 1 - w)).map some := by
    simp [windowSlice, List.map_take, List.map_drop]
  have hlen : ((closes.take (i + 1)).drop (i + 1 - w)).length = w := by
    simp
    omega
  simp only [rollingMeanAt, hslice, filterMap_id_map_some]
  rw [if_pos ⟨hw, hlen⟩]
  simp [mean, hlen]

theorem rollingMeanAt_undefined (xs : List Cell) (w i : ℕ) (hiw : i + 1 < w) :
    rollingMeanAt xs w i = none := by
  have hlen : ((windowSlice xs w i).filterMap id).length ≠ w := by
    have h1 : ((windowSlice xs w i).filterMap id).length ≤ (windowSlice xs w i).length :=
      List.length_filterMap_le _ _
    have h2 : (windowSlice xs w i).length ≤ i + 1 := by
      simp only [windowSlice, List.length_drop, List.length_take]
      omega
    omega
  simp [rollingMeanAt, hlen]

theorem rollingMeanAt_short (xs : List Cell) (w i : ℕ) (h : xs.length < w) :
    rollingMeanAt xs w i = none := by
  have hlen : ((windowSlice xs w i).filterMap id).length ≠ w := by
    have h1 : ((windowSlice xs w i).filterMap id).length ≤ (windowSlice xs w i).length :=
      List.length_filterMap_le _ _
    have h2 : (windowSlice xs w i).length ≤ xs.length := by
      simp only [windowSlice, List.length_drop, List.length_take]
      omega
    omega
  simp [rollingMeanAt, hlen]

theorem rollingMeanAt_zero (xs : List Cell) (i : ℕ) :
    rollingMeanAt xs 0 i = none := by
  simp [rollingMeanAt]

theorem rollingMean_short (xs : List Cell) (w : ℕ) (h : xs.length < w) :
    rollingMean xs w = List.replicate xs.length none := by
  refine List.ext_getElem (by simp [length_rollingMean]) ?_
  intro i h1 h2
  simp [rollingMean, rollingMeanAt_short xs w i h]

theorem rollingMean_zero (xs : List Cell) :
    rollingMean xs 0 = List.replicate xs.length none := by
  refine List.ext_getElem (by simp [length_rollingMean]) ?_
  intro i h1 h2
  simp [rollingMean, rollingMeanAt_zero]

theorem map_range_getD (l : List String) :
    (List.range l.length).map (fun i => l.getD i "") = l := by
  apply List.ext_getElem
  · simp
  · intro i h1 h2
    simp [List.getD_eq_getElem?_getD, List.getElem?_eq_getElem h2]

end StockSpec

namespace AppleStockAnalysis

open StockSpec

theorem calculate_sma_ok (df : DataFrame) (xs : List Cell) (window : ℤ)
    (hClose : df.getCol? "Close" = some xs) (hw : 0 ≤ window) :
    calculate_sma df window
      = Except.ok (df.setCol (smaColName window) (rollingMean xs window.toNat)) := by
  have hnot : ¬ window < 0 := by omega
  simp [calculate_sma, DataFrame.getItem, DataFrame.getCol?] at hClose ⊢
  simp [hClose, rolling_mean, hnot]

end AppleStockAnalysis

end Lemmas

namespace StockSpec

theorem DataFrame.getCol?_setCol_self (df : DataFrame) (name : String) (col : List Cell) :
    (df.setCol name col).getCol? name = some col :=
  getColList_setColList_self df.cols name col

theorem DataFrame.getCol?_setCol_ne (df : DataFrame) (name name' : String)
    (col : List Cell) (h : name ≠ name') :
    (df.setCol name' col).getCol? name = df.getCol? name :=
  getColList_setColList_ne df.cols name name' col h

theorem DataFrame.colNames_setCol (df : DataFrame) (name : String) (col : List Cell)
    (h : name ∉ df.colNames) : (df.setCol name col).colNames = df.colNames ++ [name] :=
  colNames_setColList df.cols name col h

end StockSpec

namespace StockSpec

theorem natToDigitsRev_eq_digits : ∀ (fuel n : ℕ), n ≤ fuel →
    natToDigitsRev fuel n = Nat.digits 10 n := by
  intro fuel
  induction fuel with
  | zero =>
    intro n hn
    have : n = 0 := by omega
    subst this
    simp [natToDigitsRev]
  | succ fuel ih =>
    intro n hn
    cases n with
    | zero => simp [natToDigitsRev]
    | succ m =>
      have hdiv : (m + 1) / 10 ≤ fuel := by
        have := Nat.div_lt_self (Nat.succ_pos m) (by norm_num : 1 < 10)
        omega
      rw [Nat.digits_def' (by norm_num : (1 : ℕ) < 10) (Nat.succ_pos m)]
      simp only [natToDigitsRev]
      rw [ih _ hdiv]

theorem charDigit_digitChar : ∀ d, d < 10 → charDigit (Nat.digitChar d) = d := by decide

theorem map_charDigit_digitChar (l : List ℕ) (hl : ∀ x ∈ l, x < 10) :
    (l.map Nat.digitChar).map charDigit = l := by
  induction l with
  | nil => rfl
  | cons a l ih =>
    simp only [List.map_cons, List.cons.injEq]
    refine ⟨charDigit_digitChar a (hl a (by simp)), ih fun x hx => hl x (by simp [hx])⟩

theorem map_digitChar_inj (l1 l2 : List ℕ) (h1 : ∀ x ∈ l1, x < 10)
    (h2 : ∀ x ∈ l2, x < 10) (h : l1.map Nat.digitChar = l2.map Nat.digitChar) :
    l1 = l2 := by
  have := congrArg (List.map charDigit) h
  rwa [map_charDigit_digitChar l1 h1, map_charDigit_digitChar l2 h2] at this

theorem asString_inj (l1 l2 : List Char) (h : l1.asString = l2.asString) : l1 = l2 :=
  congrArg String.data h

theorem natRepr_chars (n : ℕ) (hn : n ≠ 0) :
    natRepr n = (((Nat.digits 10 n).map Nat.digitChar).reverse).asString := by
  rw [natRepr, if_neg hn, natToDigitsRev_eq_digits n n le_rfl]

theorem natRepr_ne_zero_str (n : ℕ) (hn : n ≠ 0) : natRepr n ≠ "0" := by
  intro h
  rw [natRepr_chars n hn] at h
  have hd := congrArg String.data h
  have hA : ∀ l : List Char, (l.asString).data = l := fun l => rfl
  rw [hA] at hd
  have h0 : ("0" : String).data = ['0'] := rfl
  rw [h0] at hd
  have hmap : (Nat.digits 10 n).map Nat.digitChar = ['0'] := by
    have := congrArg List.reverse hd
    simpa using this
  have hlen : (Nat.digits 10 n).length = 1 := by
    have := congrArg List.length hmap
    simpa using this
  obtain ⟨d, hd1⟩ := List.length_eq_one.mp hlen
  rw [hd1] at hmap
  simp only [List.map_cons, List.map_nil, List.cons.injEq, and_true] at hmap
  have hdlt : d < 10 := Nat.digits_lt_base (by norm_num) (by rw [hd1]; simp)
  have hd0 : d = 0 := by
    have hc := charDigit_digitChar d hdlt
    rw [hmap] at hc
    exact hc.symm
  have hof := Nat.ofDigits_digits 10 n
  rw [hd1, hd0] at hof
  simp [Nat.ofDigits] at hof
  exact hn hof.symm

theorem natRepr_inj (m n : ℕ) (h : natRepr m = natRepr n) : m = n := by
  by_cases hm : m = 0 <;> by_cases hn : n = 0
  · rw [hm, hn]
  · exfalso
    rw [hm] at h
    exact natRepr_ne_zero_str n hn h.symm
  · exfalso
    rw [hn] at h
    exact natRepr_ne_zero_str m hm h
  · rw [natRepr_chars m hm, natRepr_chars n hn] at h
    have hd := asString_inj _ _ h
    have hrev := congrArg List.reverse hd
    simp only [List.reverse_reverse] at hrev
    have hdig : Nat.digits 10 m = Nat.digits 10 n :=
      map_digitChar_inj _ _ (fun x hx => Nat.digits_lt_base (by norm_num) hx)
        (fun x hx => Nat.digits_lt_base (by norm_num) hx) hrev
    have h1 := Nat.ofDigits_digits 10 m
    have h2 := Nat.ofDigits_digits 10 n
    rw [hdig] at h1
    exact h1.symm.trans h2

theorem intRepr_eq_ten (w : ℤ) (h : intRepr w = "10") : w = 10 := by
  cases w with
  | ofNat m =>
    have hm : m = 10 := natRepr_inj m 10 (by rw [show natRepr 10 = "10" from rfl]; exact h)
    rw [hm]
    rfl
  | negSucc m =>
    exfalso
    have hd := congrArg String.data h
    rw [intRepr, String.data_append] at hd
    have hminus : ("-" : String).data = ['-'] := rfl
    rw [hminus] at hd
    have h10 : ("10" : String).data = ['1', '0'] := rfl
    rw [h10] at hd
    simp only [List.cons_append, List.nil_append, List.cons.injEq] at hd
    exact absurd hd.1 (by decide)

theorem smaColName_eq_ten (window : ℤ) (h : smaColName window = "10_SMA") :
    window = 10 := by
  apply intRepr_eq_ten
  have hd := congrArg String.data h
  rw [smaColName, String.data_append] at hd
  have h10 : ("10_SMA" : String).data = ("10" : String).data ++ ("_SMA" : String).data := rfl
  rw [h10] at hd
  exact String.ext (List.append_cancel_right hd)

end StockSpec

section Claims

open StockSpec

/-- Claim C1: for every numeric close series and positive window `w`, every
entry at index `i ≥ w - 1` of the SMA column produced by `calculate_sma` is
the arithmetic mean of `closes[i-w+1..i]` (exact in the rational model, hence
within the spec's 1e-9 tolerance). -/
theorem C1_sma_window_mean (df : DataFrame) (closes : List ℚ) (w i : ℕ)
    (hClose : df.getCol? "Close" = some (closes.map some))
    (hw : 0 < w) (hiw : w - 1 ≤ i) (hi : i < closes.length) :
    ∃ df2 smaCol, AppleStockAnalysis.calculate_sma df (w : ℤ) = Except.ok df2 ∧
      df2.getCol? (smaColName (w : ℤ)) = some smaCol ∧
      smaCol[i]? = some (some (mean ((closes.take (i + 1)).drop (i + 1 - w)))) := by
  have hok := AppleStockAnalysis.calculate_sma_ok df (closes.map some) (w : ℤ) hClose
    (by omega)
  have htn : ((w : ℤ)).toNat = w := rfl
  rw [htn] at hok
  refine ⟨_, _, hok, DataFrame.getCol?_setCol_self _ _ _, ?_⟩
  have hi' : i < (closes.map some).length := by simpa using hi
  rw [getElem?_rollingMean _ _ _ hi',
    rollingMeanAt_map_some_defined closes w i hw (by omega) hi]

/-- Claim C2: for every numeric close series and positive window `w`, every
entry at index `i < w - 1` of the SMA column produced by `calculate_sma` is
the undefined marker (NaN), never a partial-window average. -/
theorem C2_sma_initial_undefined (df : DataFrame) (closes : List ℚ) (w i : ℕ)
    (hClose : df.getCol? "Close" = some (closes.map some))
    (hw : 0 < w) (hiw : i < w - 1) (hi : i < closes.length) :
    ∃ df2 smaCol, AppleStockAnalysis.calculate_sma df (w : ℤ) = Except.ok df2 ∧
      df2.getCol? (smaColName (w : ℤ)) = some smaCol ∧
      smaCol[i]? = some none := by
  have hok := AppleStockAnalysis.calculate_sma_ok df (closes.map some) (w : ℤ) hClose
    (by omega)
  have htn : ((w : ℤ)).toNat = w := rfl
  rw [htn] at hok
  refine ⟨_, _, hok, DataFrame.getCol?_setCol_self _ _ _, ?_⟩
  have hi' : i < (closes.map some).length := by simpa using hi
  rw [getElem?_rollingMean _ _ _ hi', rollingMeanAt_undefined _ _ _ (by omega)]

/-- Claim C3: the SMA column produced by `calculate_sma` has the same length
as the input close series (position `i` of the output is aligned with
position `i` of the input). -/
theorem C3_sma_length (df df2 : DataFrame) (xs : List Cell) (window : ℤ)
    (hClose : df.getCol? "Close" = some xs)
    (h : AppleStockAnalysis.calculate_sma df window = Except.ok df2) :
    ∃ smaCol, df2.getCol? (smaColName window) = some smaCol ∧
      smaCol.length = xs.length := by
  by_cases hw : window < 0
  · exfalso
    have hg : df.getItem "Close" = Except.ok xs := by
      simp [DataFrame.getItem, DataFrame.getCol?] at hClose ⊢
      simp [hClose]
    simp [AppleStockAnalysis.calculate_sma, hg, rolling_mean, hw] at h
  · rw [AppleStockAnalysis.calculate_sma_ok df xs window hClose (by omega)] at h
    simp only [Except.ok.injEq] at h
    subst h
    exact ⟨_, DataFrame.getCol?_setCol_self _ _ _, length_rollingMean _ _⟩

/-- Claim C4: when the window exceeds the input length, `calculate_sma`
succeeds and the SMA column is all undefined markers of the same length; for
the empty input it is the empty column. -/
theorem C4_sma_window_exceeds (df : DataFrame) (closes : List ℚ) (w : ℕ)
    (hClose : df.getCol? "Close" = some (closes.map some))
    (hw : closes.length < w) :
    ∃ df2, AppleStockAnalysis.calculate_sma df (w : ℤ) = Except.ok df2 ∧
      df2.getCol? (smaColName (w : ℤ)) = some (List.replicate closes.length none) := by
  have hok := AppleStockAnalysis.calculate_sma_ok df (closes.map some) (w : ℤ) hClose
    (by omega)
  have htn : ((w : ℤ)).toNat = w := rfl
  rw [htn, rollingMean_short _ _ (by simpa using hw)] at hok
  refine ⟨_, hok, ?_⟩
  have := DataFrame.getCol?_setCol_self df (smaColName (w : ℤ))
    (List.replicate (closes.map some).length none)
  simpa using this

end Claims

section Claims2

open StockSpec

/-- Claim C5 counterexample: at window `w = 0` (which satisfies `w ≤ 0`) the
transform does not report a configuration error: pandas accepts `window=0`
("window must be an integer 0 or greater" fires only for negative values) and
`calculate_sma` returns a result — an all-NaN SMA column. -/
theorem C5_counterexample :
    AppleStockAnalysis.calculate_sma
        (⟨"Date", ["2024-01-02"], [("Close", [some 1])]⟩ : DataFrame) 0
      = Except.ok
          (⟨"Date", ["2024-01-02"], [("Close", [some 1]), ("0_SMA", [none])]⟩ : DataFrame) :=
  rfl

/-- Claim C5 (amended): for every window `w < 0` the transform reports the
configuration error before computing; for `w = 0` it does not error but
returns an all-undefined SMA column of the input's length. -/
theorem C5_amended_window_validation :
    (∀ (df : DataFrame) (closes : List Cell) (window : ℤ),
        df.getCol? "Close" = some closes → window < 0 →
        AppleStockAnalysis.calculate_sma df window
          = Except.error "window must be an integer 0 or greater") ∧
    (∀ (df : DataFrame) (closes : List Cell),
        df.getCol? "Close" = some closes →
        AppleStockAnalysis.calculate_sma df 0
          = Except.ok (df.setCol (smaColName 0)
              (List.replicate closes.length none))) := by
  constructor
  · intro df closes window hClose hw
    have hg : df.getItem "Close" = Except.ok closes := by
      simp [DataFrame.getItem, DataFrame.getCol?] at hClose ⊢
      simp [hClose]
    simp [AppleStockAnalysis.calculate_sma, hg, rolling_mean, hw]
  · intro df closes hClose
    have hok := AppleStockAnalysis.calculate_sma_ok df closes 0 hClose le_rfl
    rwa [show ((0 : ℤ)).toNat = 0 from rfl, rollingMean_zero] at hok

/-- Witness for the amended Claim C5 at concrete inputs. -/
theorem C5_amended_witness :
    AppleStockAnalysis.calculate_sma
        (⟨"Date", ["2024-01-02"], [("Close", [some 1])]⟩ : DataFrame) (-1)
      = Except.error "window must be an integer 0 or greater" ∧
    AppleStockAnalysis.calculate_sma
        (⟨"Date", ["2024-01-02"], [("Close", [some 1])]⟩ : DataFrame) 0
      = Except.ok
          (DataFrame.setCol (⟨"Date", ["2024-01-02"], [("Close", [some 1])]⟩ : DataFrame)
            (smaColName 0) (List.replicate 1 none)) :=
  ⟨C5_amended_window_validation.1 _ [some 1] (-1) rfl (by norm_num),
   C5_amended_window_validation.2 _ [some 1] rfl⟩

/-- Claim C6: `calculate_sma` leaves the input frame's index and every column
other than the `{window}_SMA` column it writes unchanged, and when that
column is new it is appended after the existing columns. -/
theorem C6_no_mutation (df df2 : DataFrame) (window : ℤ)
    (h : AppleStockAnalysis.calculate_sma df window = Except.ok df2) :
    df2.indexName = df.indexName ∧ df2.index = df.index ∧
    (∀ name, name ≠ smaColName window → df2.getCol? name = df.getCol? name) ∧
    (smaColName window ∉ df.colNames →
      df2.colNames = df.colNames ++ [smaColName window]) := by
  rcases hg : df.getItem "Close" with e | close
  · simp [AppleStockAnalysis.calculate_sma, hg] at h
  · rcases hr : rolling_mean close window with e | sma
    · simp [AppleStockAnalysis.calculate_sma, hg, hr] at h
    · simp only [AppleStockAnalysis.calculate_sma, hg, hr, Except.ok.injEq] at h
      subst h
      refine ⟨rfl, rfl, ?_, ?_⟩
      · intro name hn
        exact DataFrame.getCol?_setCol_ne df name (smaColName window) sma hn
      · intro hnm
        exact DataFrame.colNames_setCol df (smaColName window) sma hnm

/-- Witness for Claim C6 at a concrete frame and window 10. -/
theorem C6_witness :
    (⟨"Date", ["d1"], [("Close", [some 2]), ("10_SMA", [none])]⟩ : DataFrame).index
      = (⟨"Date", ["d1"], [("Close", [some 2])]⟩ : DataFrame).index ∧
    (⟨"Date", ["d1"], [("Close", [some 2]), ("10_SMA", [none])]⟩ : DataFrame).getCol? "Close"
      = (⟨"Date", ["d1"], [("Close", [some 2])]⟩ : DataFrame).getCol? "Close" := by
  have h := C6_no_mutation (⟨"Date", ["d1"], [("Close", [some 2])]⟩ : DataFrame)
    (⟨"Date", ["d1"], [("Close", [some 2]), ("10_SMA", [none])]⟩ : DataFrame) 10 rfl
  exact ⟨h.2.1, h.2.2.1 "Close" (by decide)⟩

end Claims2

section Claims3

open StockSpec

/-- Claim C7: for a fetched price series (index named `Date`, numeric Close
column aligned with the index), the pipeline writes a CSV with header
`Date,Open,High,Low,Close,10_SMA`, one row per trading day in index (date)
order, and the `10_SMA` cell undefined (empty/NaN) in exactly the first 9
rows. -/
theorem C7_csv_shape (df : DataFrame) (closes : List ℚ) (opens highs lows : List Cell)
    (hName : df.indexName = "Date")
    (hOpen : df.getCol? "Open" = some opens)
    (hHigh : df.getCol? "High" = some highs)
    (hLow : df.getCol? "Low" = some lows)
    (hClose : df.getCol? "Close" = some (closes.map some))
    (hLen : closes.length = df.index.length) :
    ∃ df2 csv,
      AppleStockAnalysis.calculate_sma df 10 = Except.ok df2 ∧
      AppleStockAnalysis.process_and_save_data df2 = Except.ok csv ∧
      csv.header = ["Date", "Open", "High", "Low", "Close", "10_SMA"] ∧
      csv.rows.length = df.index.length ∧
      csv.rows.map Prod.fst = df.index ∧
      (∀ i, i < df.index.length →
        ∃ row, csv.rows[i]? = some row ∧
          row.2[4]? = some (rollingMeanAt (closes.map some) 10 i) ∧
          (rollingMeanAt (closes.map some) 10 i = none ↔ i < 9)) := by
  have hok := AppleStockAnalysis.calculate_sma_ok df (closes.map some) 10 hClose
    (by norm_num)
  have hsma10 : smaColName 10 = "10_SMA" := rfl
  have htn : ((10 : ℤ)).toNat = 10 := rfl
  rw [htn, hsma10] at hok
  refine ⟨df.setCol "10_SMA" (rollingMean (closes.map some) 10),
    buildCsv (df.setCol "10_SMA" (rollingMean (closes.map some) 10))
      [opens, highs, lows, closes.map some, rollingMean (closes.map some) 10],
    hok, ?_, ?_, ?_, ?_, ?_⟩
  case _ =>
    have hO : (df.setCol "10_SMA" (rollingMean (closes.map some) 10)).getCol? "Open"
        = some opens := by
      rw [DataFrame.getCol?_setCol_ne df _ _ _ (by decide)]; exact hOpen
    have hH : (df.setCol "10_SMA" (rollingMean (closes.map some) 10)).getCol? "High"
        = some highs := by
      rw [DataFrame.getCol?_setCol_ne df _ _ _ (by decide)]; exact hHigh
    have hL : (df.setCol "10_SMA" (rollingMean (closes.map some) 10)).getCol? "Low"
        = some lows := by
      rw [DataFrame.getCol?_setCol_ne df _ _ _ (by decide)]; exact hLow
    have hC : (df.setCol "10_SMA" (rollingMean (closes.map some) 10)).getCol? "Close"
        = some (closes.map some) := by
      rw [DataFrame.getCol?_setCol_ne df _ _ _ (by decide)]; exact hClose
    have hS : (df.setCol "10_SMA" (rollingMean (closes.map some) 10)).getCol? "10_SMA"
        = some (rollingMean (closes.map some) 10) :=
      DataFrame.getCol?_setCol_self _ _ _
    have hsel : selectColumns (df.setCol "10_SMA" (rollingMean (closes.map some) 10))
        = some [opens, highs, lows, closes.map some, rollingMean (closes.map some) 10] := by
      simp [selectColumns, saveColumns, hO, hH, hL, hC, hS]
    simp [AppleStockAnalysis.process_and_save_data, hsel]
  case _ =>
    have : (df.setCol "10_SMA" (rollingMean (closes.map some) 10)).indexName
        = df.indexName := rfl
    simp [buildCsv, this, hName, saveColumns]
  case _ =>
    simp [buildCsv, DataFrame.setCol]
  case _ =>
    have hidx : (df.setCol "10_SMA" (rollingMean (closes.map some) 10)).index
        = df.index := rfl
    simp only [buildCsv, hidx, List.map_map]
    have : (Prod.fst ∘ fun i => (df.index.getD i "",
        [opens, highs, lows, closes.map some, rollingMean (closes.map some) 10].map
          fun c => c.getD i none))
        = fun i => df.index.getD i "" := rfl
    rw [this, map_range_getD]
  case _ =>
    intro i hi
    have hidx : (df.setCol "10_SMA" (rollingMean (closes.map some) 10)).index
        = df.index := rfl
    have hiC : i < closes.length := by omega
    have hrow : (buildCsv (df.setCol "10_SMA" (rollingMean (closes.map some) 10))
        [opens, highs, lows, closes.map some, rollingMean (closes.map some) 10]).rows[i]?
        = some (df.index.getD i "",
            [opens.getD i none, highs.getD i none, lows.getD i none,
              (closes.map some).getD i none,
              (rollingMean (closes.map some) 10).getD i none]) := by
      simp [buildCsv, hidx, List.getElem?_map, List.getElem?_range, hi]
    refine ⟨_, hrow, ?_, ?_⟩
    · have hget : (rollingMean (closes.map some) 10).getD i none
          = rollingMeanAt (closes.map some) 10 i := by
        rw [List.getD_eq_getElem?_getD,
          getElem?_rollingMean _ _ _ (by simpa using hiC)]
        rfl
      have h4 : ([opens.getD i none, highs.getD i none, lows.getD i none,
          (closes.map some).getD i none,
          (rollingMean (closes.map some) 10).getD i none] : List Cell)[4]?
          = some ((rollingMean (closes.map some) 10).getD i none) := rfl
      rw [h4, hget]
    · constructor
      · intro hnone
        by_contra hi9
        push_neg at hi9
        have hdef := rollingMeanAt_map_some_defined closes 10 i (by norm_num)
          (by omega) hiC
        rw [hdef] at hnone
        simp at hnone
      · intro hi9
        exact rollingMeanAt_undefined _ _ _ (by omega)

/-- Witness for Claim C7 at a concrete one-day frame. -/
theorem C7_witness :
    ∃ df2 csv,
      AppleStockAnalysis.calculate_sma
        (⟨"Date", ["2024-01-02"],
          [("Open", [some 1]), ("High", [some 2]), ("Low", [some 3]),
            ("Close", [some 4])]⟩ : DataFrame) 10 = Except.ok df2 ∧
      AppleStockAnalysis.process_and_save_data df2 = Except.ok csv ∧
      csv.header = ["Date", "Open", "High", "Low", "Close", "10_SMA"] ∧
      csv.rows.length
        = (⟨"Date", ["2024-01-02"],
            [("Open", [some 1]), ("High", [some 2]), ("Low", [some 3]),
              ("Close", [some 4])]⟩ : DataFrame).index.length ∧
      csv.rows.map Prod.fst
        = (⟨"Date", ["2024-01-02"],
            [("Open", [some 1]), ("High", [some 2]), ("Low", [some 3]),
              ("Close", [some 4])]⟩ : DataFrame).index ∧
      (∀ i, i < (⟨"Date", ["2024-01-02"],
            [("Open", [some 1]), ("High", [some 2]), ("Low", [some 3]),
              ("Close", [some 4])]⟩ : DataFrame).index.length →
        ∃ row, csv.rows[i]? = some row ∧
          row.2[4]? = some (rollingMeanAt ([(4 : ℚ)].map some) 10 i) ∧
          (rollingMeanAt ([(4 : ℚ)].map some) 10 i = none ↔ i < 9)) :=
  C7_csv_shape
    (⟨"Date", ["2024-01-02"],
      [("Open", [some 1]), ("High", [some 2]), ("Low", [some 3]),
        ("Close", [some 4])]⟩ : DataFrame)
    [(4 : ℚ)] [some 1] [some 2] [some 3] rfl rfl rfl rfl rfl rfl

end Claims3

section Claims4

open StockSpec

/-- Claim C8: `apple_stock_data.py` terminates with exit code 1 (explicit
`sys.exit`) when the fetch fails — a download error or an empty result — and
returns normally (exit 0) on a successful run; `apple_stock_analysis.py`
catches every error in `main`, prints `An error occurred: ...`, and returns
normally. -/
theorem C8_exit_behavior :
    (∀ e, AppleStockData.main_run (Except.error e) = RunOutcome.exitWith 1) ∧
    (∀ df : DataFrame, df.index = [] →
        AppleStockData.main_run (Except.ok df) = RunOutcome.exitWith 1) ∧
    (∀ (df : DataFrame) (csv : Csv), df.index ≠ [] →
        AppleStockData.post_fetch_steps df = Except.ok csv →
        AppleStockData.main_run (Except.ok df) = RunOutcome.normal) ∧
    (∀ (download : Except String DataFrame) (e : String),
        AppleStockAnalysis.main_steps download = Except.error e →
        AppleStockAnalysis.main_run download
          = (RunOutcome.normal, some ("An error occurred: " ++ e))) := by
  refine ⟨?_, ?_, ?_, ?_⟩
  · intro e
    rfl
  · intro df h
    simp [AppleStockData.main_run, AppleStockData.fetch_stock_data, h]
  · intro df csv h hsteps
    simp [AppleStockData.main_run, AppleStockData.fetch_stock_data, h, hsteps]
  · intro download e h
    simp [AppleStockAnalysis.main_run, h]

/-- Witness for Claim C8 at concrete downloads and frames. -/
theorem C8_witness :
    AppleStockData.main_run (Except.error "network error") = RunOutcome.exitWith 1 ∧
    AppleStockData.main_run (Except.ok (⟨"Date", [], []⟩ : DataFrame))
      = RunOutcome.exitWith 1 ∧
    AppleStockData.main_run
        (Except.ok (⟨"Date", ["2024-01-02"],
          [("Open", [some 1]), ("High", [some 2]), ("Low", [some 3]),
            ("Close", [some 4])]⟩ : DataFrame)) = RunOutcome.normal ∧
    AppleStockAnalysis.main_run (Except.error "boom")
      = (RunOutcome.normal, some ("An error occurred: " ++ "boom")) :=
  ⟨C8_exit_behavior.1 "network error",
   C8_exit_behavior.2.1 (⟨"Date", [], []⟩ : DataFrame) rfl,
   C8_exit_behavior.2.2.1
     (⟨"Date", ["2024-01-02"],
       [("Open", [some 1]), ("High", [some 2]), ("Low", [some 3]),
         ("Close", [some 4])]⟩ : DataFrame)
     (⟨["Date", "Open", "High", "Low", "Close", "10_SMA"],
       [("2024-01-02", [some 1, some 2, some 3, some 4, none])]⟩ : Csv)
     (by decide) rfl,
   C8_exit_behavior.2.2.2 (Except.error "boom") "boom" rfl⟩

/-- Claim C9: the two scripts' `calculate_sma` functions are the same
transform — on every frame and window they return identical results. -/
theorem C9_scripts_equivalent (df : DataFrame) (window : ℤ) :
    AppleStockAnalysis.calculate_sma df window
      = AppleStockData.calculate_sma df window := rfl

/-- Claim C10: `process_and_save_data` selects the hard-coded column name
`10_SMA`, so for any configured window other than 10 (with a fetched frame
that has a Close column and no pre-existing `10_SMA` column) the SMA step
succeeds but the save step fails with a missing-column `KeyError`. -/
theorem C10_hardcoded_column (df : DataFrame) (closes : List Cell) (window : ℤ)
    (hClose : df.getCol? "Close" = some closes)
    (hw : 0 ≤ window) (hw10 : window ≠ 10)
    (hNo : df.getCol? "10_SMA" = none) :
    ∃ df2, AppleStockAnalysis.calculate_sma df window = Except.ok df2 ∧
      AppleStockAnalysis.process_and_save_data df2 = Except.error "KeyError" := by
  have hok := AppleStockAnalysis.calculate_sma_ok df closes window hClose hw
  refine ⟨_, hok, ?_⟩
  have hname : ("10_SMA" : String) ≠ smaColName window := by
    intro hh
    exact hw10 (smaColName_eq_ten window hh.symm)
  have h10 : (df.setCol (smaColName window)
      (rollingMean closes window.toNat)).getCol? "10_SMA" = none := by
    rw [DataFrame.getCol?_setCol_ne df _ _ _ hname]
    exact hNo
  simp [AppleStockAnalysis.process_and_save_data, selectColumns, saveColumns, h10]

/-- Witness for Claim C10 at window 7. -/
theorem C10_witness :
    ∃ df2, AppleStockAnalysis.calculate_sma
        (⟨"Date", ["2024-01-02"], [("Close", [some 1])]⟩ : DataFrame) 7
        = Except.ok df2 ∧
      AppleStockAnalysis.process_and_save_data df2 = Except.error "KeyError" :=
  C10_hardcoded_column (⟨"Date", ["2024-01-02"], [("Close", [some 1])]⟩ : DataFrame)
    [some 1] 7 rfl (by norm_num) (by norm_num) rfl

end Claims4

section Witnesses

open StockSpec

/-- Witness for Claim C1: closes = [2,4,6], w = 2, i = 2 (the spec's
end-to-end example, whose SMA output is [undef, 3.0, 5.0]). -/
theorem C1_witness :
    ∃ df2 smaCol, AppleStockAnalysis.calculate_sma
        (⟨"Date", ["d1", "d2", "d3"], [("Close", [some 2, some 4, some 6])]⟩ : DataFrame)
        ((2 : ℕ) : ℤ) = Except.ok df2 ∧
      df2.getCol? (smaColName ((2 : ℕ) : ℤ)) = some smaCol ∧
      smaCol[2]? = some (some (mean (([(2 : ℚ), 4, 6].take 3).drop 1))) :=
  C1_sma_window_mean
    (⟨"Date", ["d1", "d2", "d3"], [("Close", [some 2, some 4, some 6])]⟩ : DataFrame)
    [2, 4, 6] 2 2 rfl (by norm_num) (by norm_num) (by norm_num)

/-- Witness for Claim C2: closes = [1,2,3], w = 3, i = 1 < w - 1. -/
theorem C2_witness :
    ∃ df2 smaCol, AppleStockAnalysis.calculate_sma
        (⟨"Date", ["d1", "d2", "d3"], [("Close", [some 1, some 2, some 3])]⟩ : DataFrame)
        ((3 : ℕ) : ℤ) = Except.ok df2 ∧
      df2.getCol? (smaColName ((3 : ℕ) : ℤ)) = some smaCol ∧
      smaCol[1]? = some none :=
  C2_sma_initial_undefined
    (⟨"Date", ["d1", "d2", "d3"], [("Close", [some 1, some 2, some 3])]⟩ : DataFrame)
    [1, 2, 3] 3 1 rfl (by norm_num) (by norm_num) (by norm_num)

/-- Witness for Claim C3 at a concrete one-day frame and window 10. -/
theorem C3_witness :
    ∃ smaCol, (⟨"Date", ["d1"], [("Close", [some 5]), ("10_SMA", [none])]⟩
        : DataFrame).getCol? (smaColName 10) = some smaCol ∧
      smaCol.length = ([some (5 : ℚ)] : List Cell).length :=
  C3_sma_length (⟨"Date", ["d1"], [("Close", [some 5])]⟩ : DataFrame)
    (⟨"Date", ["d1"], [("Close", [some 5]), ("10_SMA", [none])]⟩ : DataFrame)
    [some 5] 10 rfl rfl

/-- Witness for Claim C4: a single close price with window 10 > 1. -/
theorem C4_witness :
    ∃ df2, AppleStockAnalysis.calculate_sma
        (⟨"Date", ["d1"], [("Close", [some 5])]⟩ : DataFrame) ((10 : ℕ) : ℤ)
        = Except.ok df2 ∧
      df2.getCol? (smaColName ((10 : ℕ) : ℤ))
        = some (List.replicate ([(5 : ℚ)] : List ℚ).length none) :=
  C4_sma_window_exceeds (⟨"Date", ["d1"], [("Close", [some 5])]⟩ : DataFrame)
    [5] 10 rfl (by norm_num)

end Witnesses
